import Mathlib

set_option maxRecDepth 16384

/-!
Shallow embedding of the NestJS module generator (`src/generate.js`) and a
verification of the specification's claims about it.

Strings are modelled as Lean `String` (lists of characters); the JavaScript
case transforms and the regex-based separators act on ASCII letters only,
exactly as the `[a-z]`/`[A-Z]` character classes and the core
`Char.toUpper`/`Char.toLower` do.  The filesystem is modelled as an explicit
state (`FS`): a map from paths to file contents plus a set of directories.
Each engine operation additionally returns the list of filesystem events it
performed, so that "no filesystem access" claims are statable.
-/

/-! ## Placeholder tokens (§4.2)

The six recognized placeholder tokens of `processTemplate`
(`src/generate.js` lines 76-83).  Literal braces are written with
hexadecimal escapes. -/

def phModuleName : String := "\x7b\x7bmoduleName\x7d\x7d"

def phPascalName : String := "\x7b\x7bModuleName\x7d\x7d"

def phSnakeName : String := "\x7b\x7bmodule_name\x7d\x7d"

def phKebabName : String := "\x7b\x7bmodule-name\x7d\x7d"

def phCamelName : String := "\x7b\x7bcamelModuleName\x7d\x7d"

def phUpperName : String := "\x7b\x7bMODULE_NAME\x7d\x7d"

/-! ## NameTransformer (§4.1, `src/generate.js` lines 43-57) -/

/-- `toPascalCase(str)`: `str.charAt(0).toUpperCase() + str.slice(1)`. -/
def toPascalCase (s : String) : String :=
  match s.data with
  | [] => ""
  | c :: rest => String.mk (c.toUpper :: rest)

/-- `toCamelCase(str)`: `str.charAt(0).toLowerCase() + str.slice(1)`. -/
def toCamelCase (s : String) : String :=
  match s.data with
  | [] => ""
  | c :: rest => String.mk (c.toLower :: rest)

/-- The regex character class `[a-z]`. -/
def isLowerAZ (c : Char) : Bool := decide (97 ≤ c.toNat) && decide (c.toNat ≤ 122)

/-- The regex character class `[A-Z]`. -/
def isUpperAZ (c : Char) : Bool := decide (65 ≤ c.toNat) && decide (c.toNat ≤ 90)

/-- The global regex replace `/([a-z])([A-Z])/g → $1<sep>$2`: a separator is
inserted between a lower-case letter immediately followed by an upper-case
letter; both matched characters are consumed before scanning resumes. -/
def insertSep (sep : Char) : List Char → List Char
  | [] => []
  | [c] => [c]
  | a :: b :: rest =>
    if isLowerAZ a && isUpperAZ b then a :: sep :: b :: insertSep sep rest
    else a :: insertSep sep (b :: rest)

/-- `toKebabCase(str)`: `str.replace(/([a-z])([A-Z])/g, '$1-$2').toLowerCase()`. -/
def toKebabCase (s : String) : String :=
  String.mk ((insertSep '-' s.data).map Char.toLower)

/-- `toSnakeCase(str)`: `str.replace(/([a-z])([A-Z])/g, '$1_$2').toLowerCase()`. -/
def toSnakeCase (s : String) : String :=
  String.mk ((insertSep '_' s.data).map Char.toLower)

/-- JavaScript `str.toUpperCase()` on ASCII input. -/
def jsToUpperCase (s : String) : String :=
  String.mk (s.data.map Char.toUpper)

/-! ## Literal global replacement

`content.replace(new RegExp(placeholder, 'g'), value)` where the placeholder
contains no regex metacharacters: every (left-to-right, non-overlapping)
occurrence of the pattern is replaced. -/

/-- Worker for `replaceList`, structurally recursive on a fuel argument.
Every step consumes at least one character of the subject, so fuel equal to
the subject's length is always sufficient. -/
def replaceListAux (pat repl : List Char) : Nat → List Char → List Char
  | 0, l => l
  | _ + 1, [] => []
  | fuel + 1, c :: rest =>
    if pat ≠ [] ∧ pat.isPrefixOf (c :: rest) then
      repl ++ replaceListAux pat repl fuel ((c :: rest).drop pat.length)
    else
      c :: replaceListAux pat repl fuel rest

/-- Replace every occurrence of `pat` in the subject by `repl`, scanning left
to right without overlap (the semantics of a global literal regex replace). -/
def replaceList (pat repl l : List Char) : List Char :=
  replaceListAux pat repl l.length l

/-- String version of `replaceList`. -/
def replaceStr (pat repl s : String) : String :=
  String.mk (replaceList pat.data repl.data s.data)

/-! ## PlaceholderRenderer (§4.2, `src/generate.js` lines 76-87) -/

/-- The `replacements` object of `processTemplate`, in insertion order. -/
def replacements (moduleName : String) : List (String × String) :=
  [(phModuleName, moduleName),
   (phPascalName, toPascalCase moduleName),
   (phSnakeName, toSnakeCase moduleName),
   (phKebabName, toKebabCase moduleName),
   (phCamelName, toCamelCase moduleName),
   (phUpperName, jsToUpperCase moduleName)]

/-- `Object.entries(replacements).forEach(([p, v]) => content = content.replace(...))`:
the six global replacements applied in sequence. -/
def applyReplacements (content moduleName : String) : String :=
  (replacements moduleName).foldl (fun acc pr => replaceStr pr.1 pr.2 acc) content

/-! ## Data model (§3): TemplateDescriptor, TemplateSet, ExclusionTable -/

/-- One entry of the `templates` configuration object
(`src/generate.js` lines 12-32).  `outputPath` and `filename` are optional;
`none` models the JavaScript property being absent (falsy). -/
structure TemplateConfig where
  extension : String
  required : Bool
  outputPath : Option String := none
  filename : Option String := none
deriving DecidableEq

/-- The full configuration (`this.config`): `templatesDir`, `outputDir`, the
ordered `templates` mapping and the `exclusions` table.  Object key order is
modelled by association lists. -/
structure Config where
  templatesDir : String
  outputDir : String
  templates : List (String × TemplateConfig)
  exclusions : List (String × List String)
deriving DecidableEq

/-- The built-in default configuration from the `NestJSGenerator`
constructor (`src/generate.js` lines 8-39). -/
def defaultConfig : Config where
  templatesDir := "./templates"
  outputDir := "./src/modules"
  templates :=
    [("module", { extension := "module.ts", required := true }),
     ("controller", { extension := "controller.ts", required := true }),
     ("service", { extension := "service.ts", required := true }),
     ("create-dto",
       { extension := "dto.ts", required := false, outputPath := some "dto",
         filename := some ("create-" ++ phModuleName ++ ".dto.ts") }),
     ("update-dto",
       { extension := "dto.ts", required := false, outputPath := some "dto",
         filename := some ("update-" ++ phModuleName ++ ".dto.ts") }),
     ("schema",
       { extension := "schema.ts", required := false, outputPath := some "schema",
         filename := some (phModuleName ++ ".schema.ts") })]
  exclusions :=
    [("create-dto", ["auth", "payments"]),
     ("update-dto", ["auth", "payments"]),
     ("schema", ["auth", "sidebar"])]

/-! ## ExclusionPolicy (§4.3, `src/generate.js` lines 60-63) -/

/-- `shouldExclude(moduleName, templateName)`:
`excludeList && excludeList.includes(moduleName)` — true iff the exclusions
table has an entry for the template and that entry contains the module. -/
def shouldExclude (cfg : Config) (moduleName templateName : String) : Bool :=
  match cfg.exclusions.lookup templateName with
  | some excludeList => excludeList.contains moduleName
  | none => false

/-! ## Filesystem model

A file map (path to content, first entry wins) plus a set of directory
paths.  `path.join` on the simple relative segments used by the generator is
plain separator concatenation. -/

def pathJoin (a b : String) : String := a ++ "/" ++ b

structure FS where
  files : List (String × String)
  dirs : List String
deriving DecidableEq

def FS.readFile (fs : FS) (p : String) : Option String := fs.files.lookup p

/-- Does `p` exist as a regular file? -/
def FS.isFile (fs : FS) (p : String) : Bool := (fs.files.lookup p).isSome

/-- `fs.existsSync(p)`: true if `p` exists as a file or as a directory. -/
def FS.existsPath (fs : FS) (p : String) : Bool :=
  fs.isFile p || fs.dirs.contains p

/-- `fs.mkdirSync(p, { recursive: true })` on a path that is not a file:
idempotent directory creation. -/
def FS.mkdir (fs : FS) (p : String) : FS :=
  if fs.dirs.contains p then fs else { fs with dirs := p :: fs.dirs }

/-- `fs.writeFileSync(p, c)`: create or overwrite the file at `p`. -/
def FS.writeFile (fs : FS) (p c : String) : FS :=
  { fs with files := (p, c) :: fs.files }

/-- The filesystem accesses an engine operation performs, in order. -/
inductive FSEvent where
  | templateRead (path : String)
  | dirCreate (path : String)
  | existsCheck (path : String)
  | fileWrite (path : String) (content : String)
deriving DecidableEq

/-- Per-(module, template) result (§3 GenerationOutcome). -/
inductive GenerationOutcome where
  | Generated (path : String)
  | SkippedExcluded
  | SkippedExists (path : String)
  | Failed (reason : String)
deriving DecidableEq

/-! ## OutputResolver (§4.4) — the path computations of `generateFile`
(`src/generate.js` lines 102-125) -/

/-- The template store path `path.join(templatesDir, templateName + '.stub')`
(`src/generate.js` line 67). -/
def templatePathFor (cfg : Config) (templateName : String) : String :=
  pathJoin cfg.templatesDir (templateName ++ ".stub")

/-- The destination directory (`src/generate.js` lines 103-112):
`outputDir/moduleName`, with `templateConfig.outputPath` appended when
present. -/
def outputPathFor (cfg : Config) (moduleName : String) (tc : TemplateConfig) : String :=
  match tc.outputPath with
  | some sub => pathJoin (pathJoin cfg.outputDir moduleName) sub
  | none => pathJoin cfg.outputDir moduleName

/-- The destination filename (`src/generate.js` lines 118-123): the
`filename` pattern with only the `\x7b\x7bmoduleName\x7d\x7d` token globally
substituted when a pattern is present, else `moduleName.extension`. -/
def filenameFor (moduleName : String) (tc : TemplateConfig) : String :=
  match tc.filename with
  | some pat => replaceStr phModuleName moduleName pat
  | none => moduleName ++ "." ++ tc.extension

/-- The full destination path (`src/generate.js` line 125). -/
def fullPathFor (cfg : Config) (moduleName : String) (tc : TemplateConfig) : String :=
  pathJoin (outputPathFor cfg moduleName tc) (filenameFor moduleName tc)

/-- What §4.4 of the spec says the filename computation is: the pattern
substituted via the FULL placeholder renderer (all six tokens).  Kept
separate from `filenameFor` (which embeds the code) so the two can be
compared. -/
def specFilenameFor (moduleName : String) (tc : TemplateConfig) : String :=
  match tc.filename with
  | some pat => applyReplacements pat moduleName
  | none => moduleName ++ "." ++ tc.extension

/-! ## GenerationEngine (§4.5, `src/generate.js` lines 93-140) -/

/-- `generateFile(moduleName, templateName, templateConfig)`.

Returns the outcome, the resulting filesystem, and the trace of filesystem
events (in program order).  The branches mirror the source exactly:
exclusion check first (no filesystem access); then `processTemplate`
(template existence check + read + render — before everything else); then
output path computation and `mkdirSync` (which throws, caught by the unit's
`try`/`catch`, when the path already exists as a file); then the filename
computation; then the destination existence check; then the write. -/
def generateFile (cfg : Config) (fs : FS) (moduleName templateName : String)
    (tc : TemplateConfig) : GenerationOutcome × FS × List FSEvent :=
  if shouldExclude cfg moduleName templateName then
    (.SkippedExcluded, fs, [])
  else
    let templatePath := templatePathFor cfg templateName
    match fs.readFile templatePath with
    | none =>
      (.Failed ("Template not found: " ++ templatePath), fs, [.templateRead templatePath])
    | some body =>
      let content := applyReplacements body moduleName
      let outputPath := outputPathFor cfg moduleName tc
      if fs.isFile outputPath then
        (.Failed ("EEXIST: file already exists, mkdir " ++ outputPath), fs,
         [.templateRead templatePath, .dirCreate outputPath])
      else
        let fs1 := fs.mkdir outputPath
        let fullPath := pathJoin outputPath (filenameFor moduleName tc)
        if fs1.existsPath fullPath then
          (.SkippedExists fullPath, fs1,
           [.templateRead templatePath, .dirCreate outputPath, .existsCheck fullPath])
        else
          (.Generated fullPath, fs1.writeFile fullPath content,
           [.templateRead templatePath, .dirCreate outputPath, .existsCheck fullPath,
            .fileWrite fullPath content])

/-- The `forEach` over `Object.entries(this.config.templates)` inside
`generateModule`, threading the filesystem state left to right. -/
def runTemplates (cfg : Config) (moduleName : String) :
    List (String × TemplateConfig) → FS → List (String × GenerationOutcome) × FS
  | [], fs => ([], fs)
  | (tn, tc) :: rest, fs =>
    let r := generateFile cfg fs moduleName tn tc
    let rs := runTemplates cfg moduleName rest r.2.1
    ((tn, r.1) :: rs.1, rs.2)

/-- `generateModule(moduleName)` (`src/generate.js` lines 143-149). -/
def generateModule (cfg : Config) (fs : FS) (moduleName : String) :
    List (String × GenerationOutcome) × FS :=
  runTemplates cfg moduleName cfg.templates fs

/-- The `forEach` over the module list inside `generateModules`. -/
def runModules (cfg : Config) :
    List String → FS → List (String × List (String × GenerationOutcome)) × FS
  | [], fs => ([], fs)
  | m :: rest, fs =>
    let r := generateModule cfg fs m
    let rs := runModules cfg rest r.2
    ((m, r.1) :: rs.1, rs.2)

/-- `generateModules(moduleNames)` (`src/generate.js` lines 152-166): the
templates-directory precondition is checked once, before any module is
processed; its failure (`process.exit(1)`) is the single fatal signal,
modelled as `Except.error`. -/
def generateModules (cfg : Config) (fs : FS) (moduleNames : List String) :
    Except String (List (String × List (String × GenerationOutcome)) × FS) :=
  if fs.existsPath cfg.templatesDir then
    .ok (runModules cfg moduleNames fs)
  else
    .error ("Templates directory not found: " ++ cfg.templatesDir)

/-! ## Configuration loading (`src/generate.js` lines 169-179) -/

/-- A user-supplied configuration: any subset of the top-level keys. -/
structure UserConfig where
  templatesDir : Option String := none
  outputDir : Option String := none
  templates : Option (List (String × TemplateConfig)) := none
  exclusions : Option (List (String × List String)) := none
deriving DecidableEq

/-- The object spread `{ ...this.config, ...userConfig }` over the fixed
top-level key set: each key present in the user configuration wholly
replaces the built-in value; absent keys keep the default. -/
def mergeConfig (base : Config) (u : UserConfig) : Config where
  templatesDir := u.templatesDir.getD base.templatesDir
  outputDir := u.outputDir.getD base.outputDir
  templates := u.templates.getD base.templates
  exclusions := u.exclusions.getD base.exclusions

/-- `loadConfig`: a missing or unreadable configuration file
(`ConfigLoadFailure`) leaves the built-in defaults untouched; otherwise the
user configuration is shallow-merged on. -/
def loadConfig (base : Config) (user : Option UserConfig) : Config :=
  match user with
  | none => base
  | some u => mergeConfig base u

/-- Is a batch invocation non-fatal? -/
def exceptIsOk {ε α : Type} : Except ε α → Bool
  | .ok _ => true
  | .error _ => false

/-! ## Concrete fixtures used by witnesses and counterexamples -/

/-- The `module` template's descriptor from the default configuration. -/
def moduleTc : TemplateConfig := { extension := "module.ts", required := true }

/-- The `create-dto` template's descriptor from the default configuration. -/
def createDtoTc : TemplateConfig :=
  { extension := "dto.ts", required := false, outputPath := some "dto",
    filename := some ("create-" ++ phModuleName ++ ".dto.ts") }

/-- A descriptor whose filename pattern uses the Pascal-case placeholder. -/
def pascalPatternTc : TemplateConfig :=
  { extension := "dto.ts", required := false, outputPath := some "dto",
    filename := some ("create-" ++ phPascalName ++ ".dto.ts") }

/-- A filesystem holding the default `templates` directory and a body for the
`module` template. -/
def fsModuleStub : FS :=
  ⟨[("./templates/module.stub", "class " ++ phPascalName ++ "Module")], ["./templates"]⟩

/-- A template containing all six recognized placeholder tokens, each twice. -/
def sixTokenTemplate : String :=
  phModuleName ++ " " ++ phPascalName ++ " " ++ phCamelName ++ " " ++ phKebabName ++ " "
    ++ phSnakeName ++ " " ++ phUpperName ++ " / " ++ phModuleName ++ " " ++ phPascalName
    ++ " " ++ phCamelName ++ " " ++ phKebabName ++ " " ++ phSnakeName ++ " " ++ phUpperName

/-! ## Helper lemmas -/

theorem char_eq_of_toNat_eq {c d : Char} (h : c.toNat = d.toNat) : c = d := by
  have h1 := Char.ofNat_toNat c
  have h2 := Char.ofNat_toNat d
  rw [← h1, ← h2, h]

theorem charOfNat_toNat {n : Nat} (h : n < 55296) : (Char.ofNat n).toNat = n := by
  unfold Char.ofNat
  rw [dif_pos (Or.inl h)]
  rfl

theorem toUpper_toNat (c : Char) :
    c.toUpper.toNat = if 97 ≤ c.toNat ∧ c.toNat ≤ 122 then c.toNat - 32 else c.toNat := by
  unfold Char.toUpper
  simp only [ge_iff_le]
  by_cases h : 97 ≤ c.toNat ∧ c.toNat ≤ 122
  · rw [if_pos h, if_pos h]
    exact charOfNat_toNat (by omega)
  · rw [if_neg h, if_neg h]

theorem toLower_toNat (c : Char) :
    c.toLower.toNat = if 65 ≤ c.toNat ∧ c.toNat ≤ 90 then c.toNat + 32 else c.toNat := by
  unfold Char.toLower
  simp only [ge_iff_le]
  by_cases h : 65 ≤ c.toNat ∧ c.toNat ≤ 90
  · rw [if_pos h, if_pos h]
    exact charOfNat_toNat (by omega)
  · rw [if_neg h, if_neg h]

theorem toUpper_idem (c : Char) : c.toUpper.toUpper = c.toUpper := by
  apply char_eq_of_toNat_eq
  rw [toUpper_toNat, toUpper_toNat]
  split_ifs <;> omega

theorem toLower_idem (c : Char) : c.toLower.toLower = c.toLower := by
  apply char_eq_of_toNat_eq
  rw [toLower_toNat, toLower_toNat]
  split_ifs <;> omega

/-- Lower-casing never yields an ASCII upper-case letter, so the separator
insertion pass finds no `[a-z][A-Z]` boundary in a lower-cased string. -/
theorem isUpperAZ_toLower (c : Char) : isUpperAZ c.toLower = false := by
  simp only [isUpperAZ, toLower_toNat, Bool.and_eq_false_iff, decide_eq_false_iff_not, not_le]
  split_ifs <;> omega

theorem insertSep_eq_self (sep : Char) :
    ∀ l : List Char, (∀ c ∈ l, isUpperAZ c = false) → insertSep sep l = l
  | [], _ => rfl
  | [_], _ => rfl
  | a :: b :: rest, h => by
    have hb : isUpperAZ b = false := h b (by simp)
    have htail : ∀ c ∈ b :: rest, isUpperAZ c = false :=
      fun c hc => h c (List.mem_cons_of_mem a hc)
    simp only [insertSep, hb, Bool.and_false, Bool.false_eq_true, if_false]
    rw [insertSep_eq_self sep (b :: rest) htail]

theorem forall_isUpperAZ_map_toLower (l : List Char) :
    ∀ c ∈ l.map Char.toLower, isUpperAZ c = false := by
  intro c hc
  obtain ⟨d, _, rfl⟩ := List.mem_map.1 hc
  exact isUpperAZ_toLower d

theorem map_toLower_idem (l : List Char) :
    (l.map Char.toLower).map Char.toLower = l.map Char.toLower := by
  rw [List.map_map]
  exact List.map_congr_left fun c _ => toLower_idem c

theorem pathJoin_length (a b : String) :
    (pathJoin a b).length = a.length + 1 + b.length := by
  simp [pathJoin]
  decide

theorem pathJoin_ne_left (a b : String) : pathJoin a b ≠ a := by
  intro h
  have hl := congrArg String.length h
  rw [pathJoin_length] at hl
  omega

theorem FS.mkdir_files (fs : FS) (d : String) : (fs.mkdir d).files = fs.files := by
  unfold FS.mkdir
  split <;> rfl

theorem FS.mkdir_contains_self (fs : FS) (d : String) :
    (fs.mkdir d).dirs.contains d = true := by
  unfold FS.mkdir
  split
  · assumption
  · simp

theorem FS.mkdir_of_contains (fs : FS) (d : String) (h : fs.dirs.contains d = true) :
    fs.mkdir d = fs := by
  unfold FS.mkdir
  rw [if_pos h]

theorem FS.isFile_mkdir (fs : FS) (d p : String) :
    (fs.mkdir d).isFile p = fs.isFile p := by
  unfold FS.isFile
  rw [FS.mkdir_files]

theorem FS.existsPath_mkdir_of_ne (fs : FS) (d p : String) (h : p ≠ d) :
    (fs.mkdir d).existsPath p = fs.existsPath p := by
  unfold FS.existsPath
  rw [FS.isFile_mkdir]
  unfold FS.mkdir
  split
  · rfl
  · simp [List.contains_cons, h]

theorem FS.writeFile_dirs (fs : FS) (p c : String) : (fs.writeFile p c).dirs = fs.dirs := rfl

theorem FS.readFile_writeFile_self (fs : FS) (p c : String) :
    (fs.writeFile p c).readFile p = some c := by
  simp [FS.writeFile, FS.readFile, List.lookup_cons]

theorem FS.readFile_writeFile_of_ne (fs : FS) (p c q : String) (h : q ≠ p) :
    (fs.writeFile p c).readFile q = fs.readFile q := by
  have hb : (q == p) = false := beq_eq_false_iff_ne.mpr h
  simp [FS.writeFile, FS.readFile, List.lookup_cons, hb]

theorem FS.isFile_writeFile_of_ne (fs : FS) (p c q : String) (h : q ≠ p) :
    (fs.writeFile p c).isFile q = fs.isFile q := by
  unfold FS.isFile
  have hb : (q == p) = false := beq_eq_false_iff_ne.mpr h
  simp [FS.writeFile, List.lookup_cons, hb]

theorem FS.isFile_writeFile_self (fs : FS) (p c : String) :
    (fs.writeFile p c).isFile p = true := by
  simp [FS.writeFile, FS.isFile, List.lookup_cons]

theorem FS.readFile_mkdir (fs : FS) (d p : String) :
    (fs.mkdir d).readFile p = fs.readFile p := by
  unfold FS.readFile
  rw [FS.mkdir_files]

theorem FS.existsPath_of_isFile (fs : FS) (p : String) (h : fs.isFile p = true) :
    fs.existsPath p = true := by
  unfold FS.existsPath
  rw [h]
  rfl

/-- Each unit produces exactly one outcome, keyed and ordered like the
configured template list: a failed unit never prevents the remaining
templates of the module from being attempted. -/
theorem runTemplates_keys (cfg : Config) (m : String) :
    ∀ (ts : List (String × TemplateConfig)) (fs : FS),
      (runTemplates cfg m ts fs).1.map Prod.fst = ts.map Prod.fst
  | [], _ => rfl
  | (tn, tc) :: rest, fs => by
    simp [runTemplates, runTemplates_keys cfg m rest]

/-- Each module produces exactly one outcome list, keyed and ordered like
the input name list. -/
theorem runModules_keys (cfg : Config) :
    ∀ (names : List String) (fs : FS),
      (runModules cfg names fs).1.map Prod.fst = names
  | [], _ => rfl
  | n :: rest, fs => by
    simp [runModules, runModules_keys cfg rest]

theorem shouldExclude_eq_true_iff (cfg : Config) (m t : String) :
    shouldExclude cfg m t = true ↔
      ∃ l, cfg.exclusions.lookup t = some l ∧ m ∈ l := by
  unfold shouldExclude
  cases h : cfg.exclusions.lookup t with
  | none => simp
  | some l => simp

theorem fullPathFor_ne_outputPathFor (cfg : Config) (m : String) (tc : TemplateConfig) :
    fullPathFor cfg m tc ≠ outputPathFor cfg m tc :=
  pathJoin_ne_left _ _

/-- Unit characterization, fresh-generation case: module not excluded,
template body present, destination directory not occupied by a file,
destination file absent. -/
theorem generateFile_generated (cfg : Config) (fs : FS) (m tn : String)
    (tc : TemplateConfig) (body : String)
    (hex : shouldExclude cfg m tn = false)
    (hbody : fs.readFile (templatePathFor cfg tn) = some body)
    (hnf : fs.isFile (outputPathFor cfg m tc) = false)
    (habs : fs.existsPath (fullPathFor cfg m tc) = false) :
    generateFile cfg fs m tn tc =
      (.Generated (fullPathFor cfg m tc),
       (fs.mkdir (outputPathFor cfg m tc)).writeFile (fullPathFor cfg m tc)
         (applyReplacements body m),
       [.templateRead (templatePathFor cfg tn), .dirCreate (outputPathFor cfg m tc),
        .existsCheck (fullPathFor cfg m tc),
        .fileWrite (fullPathFor cfg m tc) (applyReplacements body m)]) := by
  have h1 : (fs.mkdir (outputPathFor cfg m tc)).existsPath (fullPathFor cfg m tc) = false := by
    rw [FS.existsPath_mkdir_of_ne _ _ _ (fullPathFor_ne_outputPathFor cfg m tc)]
    exact habs
  rw [show fullPathFor cfg m tc
        = pathJoin (outputPathFor cfg m tc) (filenameFor m tc) from rfl] at h1 ⊢
  simp only [generateFile, hex, Bool.false_eq_true, if_false, hbody, hnf, h1]

/-- Unit characterization, destination-exists case: module not excluded,
template body present, destination directory not occupied by a file,
destination file (or a directory of the same path) already present.  The
template is still read and rendered; no write event occurs. -/
theorem generateFile_skipped_exists (cfg : Config) (fs : FS) (m tn : String)
    (tc : TemplateConfig) (body : String)
    (hex : shouldExclude cfg m tn = false)
    (hbody : fs.readFile (templatePathFor cfg tn) = some body)
    (hnf : fs.isFile (outputPathFor cfg m tc) = false)
    (hfull : fs.existsPath (fullPathFor cfg m tc) = true) :
    generateFile cfg fs m tn tc =
      (.SkippedExists (fullPathFor cfg m tc), fs.mkdir (outputPathFor cfg m tc),
       [.templateRead (templatePathFor cfg tn), .dirCreate (outputPathFor cfg m tc),
        .existsCheck (fullPathFor cfg m tc)]) := by
  have h1 : (fs.mkdir (outputPathFor cfg m tc)).existsPath (fullPathFor cfg m tc) = true := by
    rw [FS.existsPath_mkdir_of_ne _ _ _ (fullPathFor_ne_outputPathFor cfg m tc)]
    exact hfull
  rw [show fullPathFor cfg m tc
        = pathJoin (outputPathFor cfg m tc) (filenameFor m tc) from rfl] at h1 ⊢
  simp only [generateFile, hex, Bool.false_eq_true, if_false, hbody, hnf, h1, if_true]

/-! ## Claim theorems -/

/-- C3: if the module is listed in the exclusion table's entry for the
template, `generateFile` returns `SkippedExcluded`, leaves the filesystem
untouched, and performs no filesystem access of any kind (empty event
trace). -/
theorem excluded_no_fs_access (cfg : Config) (fs : FS) (m tn : String)
    (tc : TemplateConfig) (l : List String)
    (hl : cfg.exclusions.lookup tn = some l) (hm : m ∈ l) :
    generateFile cfg fs m tn tc = (.SkippedExcluded, fs, []) := by
  have hx : shouldExclude cfg m tn = true :=
    (shouldExclude_eq_true_iff cfg m tn).2 ⟨l, hl, hm⟩
  simp [generateFile, hx]

/-- Witness for C3 at the default configuration: `auth` is excluded from
`create-dto`, and the engine does nothing. -/
theorem excluded_no_fs_access_witness :
    defaultConfig.exclusions.lookup "create-dto" = some ["auth", "payments"] ∧
    generateFile defaultConfig fsModuleStub "auth" "create-dto" createDtoTc
      = (.SkippedExcluded, fsModuleStub, []) :=
  ⟨by decide,
   excluded_no_fs_access defaultConfig fsModuleStub "auth" "create-dto" createDtoTc
     ["auth", "payments"] (by decide) (by decide)⟩

/-- C8: `shouldExclude` returns true iff the exclusion table has an entry for
the template and that entry contains the module; in particular it is false
for every module when the template is absent from the table. -/
theorem shouldExclude_spec (cfg : Config) (m t : String) :
    (shouldExclude cfg m t = true ↔
      ∃ l, cfg.exclusions.lookup t = some l ∧ m ∈ l) ∧
    (cfg.exclusions.lookup t = none → shouldExclude cfg m t = false) := by
  refine ⟨shouldExclude_eq_true_iff cfg m t, fun h => ?_⟩
  unfold shouldExclude
  rw [h]

/-- Witness for C8: `entity` has no entry in the default exclusion table, so
no module is excluded from it. -/
theorem shouldExclude_spec_witness :
    defaultConfig.exclusions.lookup "entity" = none ∧
    shouldExclude defaultConfig "auth" "entity" = false :=
  ⟨by decide, (shouldExclude_spec defaultConfig "auth" "entity").2 (by decide)⟩

/-- C4: a batch invocation succeeds exactly when the templates directory
exists — the missing-directory precondition is the only fatal condition —
and when the directory is missing the batch is a single fatal error signal
carrying no outcomes. -/
theorem batch_precondition (cfg : Config) (fs : FS) (names : List String) :
    exceptIsOk (generateModules cfg fs names) = fs.existsPath cfg.templatesDir ∧
    (fs.existsPath cfg.templatesDir = false →
      generateModules cfg fs names
        = .error ("Templates directory not found: " ++ cfg.templatesDir)) := by
  unfold generateModules
  cases h : fs.existsPath cfg.templatesDir <;> simp [h, exceptIsOk]

/-- Witness for C4: on an empty filesystem the default batch invocation
fails with the single fatal signal and yields no outcomes. -/
theorem batch_precondition_witness :
    FS.existsPath ⟨[], []⟩ defaultConfig.templatesDir = false ∧
    generateModules defaultConfig ⟨[], []⟩ ["users", "orders"]
      = .error ("Templates directory not found: " ++ defaultConfig.templatesDir) :=
  ⟨by decide, (batch_precondition defaultConfig ⟨[], []⟩ ["users", "orders"]).2 (by decide)⟩

/-- C9: loading a user configuration shallow-merges it onto the defaults:
each top-level key present in the user configuration (including `templates`
and `exclusions`) wholly replaces the built-in value, and each absent key
keeps its built-in default. -/
theorem loadConfig_shallow_merge (base : Config) (u : UserConfig) :
    ((∀ v, u.templatesDir = some v → (loadConfig base (some u)).templatesDir = v) ∧
     (u.templatesDir = none → (loadConfig base (some u)).templatesDir = base.templatesDir)) ∧
    ((∀ v, u.outputDir = some v → (loadConfig base (some u)).outputDir = v) ∧
     (u.outputDir = none → (loadConfig base (some u)).outputDir = base.outputDir)) ∧
    ((∀ v, u.templates = some v → (loadConfig base (some u)).templates = v) ∧
     (u.templates = none → (loadConfig base (some u)).templates = base.templates)) ∧
    ((∀ v, u.exclusions = some v → (loadConfig base (some u)).exclusions = v) ∧
     (u.exclusions = none → (loadConfig base (some u)).exclusions = base.exclusions)) := by
  refine ⟨⟨?_, ?_⟩, ⟨?_, ?_⟩, ⟨?_, ?_⟩, ⟨?_, ?_⟩⟩ <;>
    first
      | (intro v h; simp [loadConfig, mergeConfig, h])
      | (intro h; simp [loadConfig, mergeConfig, h])

/-- Witness for C9: a user configuration that only overrides `exclusions`
wholly replaces the built-in exclusion table (the untouched built-in entries
under that key are dropped, not merged) and keeps every other key's
default. -/
theorem loadConfig_shallow_merge_witness :
    (loadConfig defaultConfig
        (some { exclusions := some [("schema", ["sidebar"])] })).exclusions
      = [("schema", ["sidebar"])] ∧
    (loadConfig defaultConfig
        (some { exclusions := some [("schema", ["sidebar"])] })).templates
      = defaultConfig.templates :=
  ⟨((loadConfig_shallow_merge defaultConfig
        { exclusions := some [("schema", ["sidebar"])] }).2.2.2.1)
      [("schema", ["sidebar"])] rfl,
   ((loadConfig_shallow_merge defaultConfig
        { exclusions := some [("schema", ["sidebar"])] }).2.2.1.2) rfl⟩

/-- C1 (amended): for a unit on the normal generation path — module not
excluded for the template, template body present, destination directory not
occupied by a file, destination file initially absent — two successive calls
yield `Generated` then `SkippedExists`, and the destination's content after
the second call equals its content after the first call: the file is never
rewritten. -/
theorem generate_idempotent (cfg : Config) (fs : FS) (m tn : String)
    (tc : TemplateConfig) (body : String)
    (hex : shouldExclude cfg m tn = false)
    (hbody : fs.readFile (templatePathFor cfg tn) = some body)
    (hnf : fs.isFile (outputPathFor cfg m tc) = false)
    (habs : fs.existsPath (fullPathFor cfg m tc) = false) :
    (generateFile cfg fs m tn tc).1 = .Generated (fullPathFor cfg m tc) ∧
    (generateFile cfg (generateFile cfg fs m tn tc).2.1 m tn tc).1
      = .SkippedExists (fullPathFor cfg m tc) ∧
    ((generateFile cfg (generateFile cfg fs m tn tc).2.1 m tn tc).2.1).readFile
        (fullPathFor cfg m tc)
      = ((generateFile cfg fs m tn tc).2.1).readFile (fullPathFor cfg m tc) := by
  have hfirst := generateFile_generated cfg fs m tn tc body hex hbody hnf habs
  have hop := fullPathFor_ne_outputPathFor cfg m tc
  have hbody2 : ∃ b2,
      (((fs.mkdir (outputPathFor cfg m tc)).writeFile (fullPathFor cfg m tc)
        (applyReplacements body m)).readFile (templatePathFor cfg tn)) = some b2 := by
    by_cases heq : templatePathFor cfg tn = fullPathFor cfg m tc
    · exact ⟨applyReplacements body m, by rw [heq, FS.readFile_writeFile_self]⟩
    · exact ⟨body, by rw [FS.readFile_writeFile_of_ne _ _ _ _ heq, FS.readFile_mkdir]; exact hbody⟩
  obtain ⟨b2, hb2⟩ := hbody2
  have hnf2 : (((fs.mkdir (outputPathFor cfg m tc)).writeFile (fullPathFor cfg m tc)
      (applyReplacements body m)).isFile (outputPathFor cfg m tc)) = false := by
    rw [FS.isFile_writeFile_of_ne _ _ _ _ (Ne.symm hop), FS.isFile_mkdir]
    exact hnf
  have hfull2 : (((fs.mkdir (outputPathFor cfg m tc)).writeFile (fullPathFor cfg m tc)
      (applyReplacements body m)).existsPath (fullPathFor cfg m tc)) = true := by
    apply FS.existsPath_of_isFile
    exact FS.isFile_writeFile_self _ _ _
  have hsecond := generateFile_skipped_exists cfg
    ((fs.mkdir (outputPathFor cfg m tc)).writeFile (fullPathFor cfg m tc)
      (applyReplacements body m)) m tn tc b2 hex hb2 hnf2 hfull2
  have hmk : (((fs.mkdir (outputPathFor cfg m tc)).writeFile (fullPathFor cfg m tc)
      (applyReplacements body m)).mkdir (outputPathFor cfg m tc))
      = ((fs.mkdir (outputPathFor cfg m tc)).writeFile (fullPathFor cfg m tc)
        (applyReplacements body m)) := by
    apply FS.mkdir_of_contains
    rw [FS.writeFile_dirs]
    exact FS.mkdir_contains_self fs _
  refine ⟨by rw [hfirst], ?_, ?_⟩
  · rw [hfirst]
    show (generateFile cfg _ m tn tc).1 = _
    rw [hsecond]
  · rw [hfirst]
    show ((generateFile cfg _ m tn tc).2.1).readFile _ = _
    rw [hsecond]
    show ((_ : FS).mkdir _).readFile _ = _
    rw [hmk]

/-- C1 counterexample: under the default configuration, `auth` is excluded
from `create-dto`; with the template body present and the destination
absent, the first call yields `SkippedExcluded`, not `Generated`, so the
claim as stated (quantified over every module and template) fails. -/
theorem generate_idempotent_cex :
    (FS.readFile ⟨[("./templates/create-dto.stub", "B")], ["./templates"]⟩
        (templatePathFor defaultConfig "create-dto")).isSome = true ∧
    FS.existsPath ⟨[("./templates/create-dto.stub", "B")], ["./templates"]⟩
        (fullPathFor defaultConfig "auth" createDtoTc) = false ∧
    (generateFile defaultConfig ⟨[("./templates/create-dto.stub", "B")], ["./templates"]⟩
        "auth" "create-dto" createDtoTc).1 = .SkippedExcluded := by
  decide

/-- Witness for C1 at a concrete fresh generation of `users`/`module`. -/
theorem generate_idempotent_witness :
    (generateFile defaultConfig fsModuleStub "users" "module" moduleTc).1
      = .Generated (fullPathFor defaultConfig "users" moduleTc) ∧
    (generateFile defaultConfig
        (generateFile defaultConfig fsModuleStub "users" "module" moduleTc).2.1
        "users" "module" moduleTc).1
      = .SkippedExists (fullPathFor defaultConfig "users" moduleTc) ∧
    ((generateFile defaultConfig
        (generateFile defaultConfig fsModuleStub "users" "module" moduleTc).2.1
        "users" "module" moduleTc).2.1).readFile (fullPathFor defaultConfig "users" moduleTc)
      = ((generateFile defaultConfig fsModuleStub "users" "module" moduleTc).2.1).readFile
          (fullPathFor defaultConfig "users" moduleTc) :=
  generate_idempotent defaultConfig fsModuleStub "users" "module" moduleTc
    ("class " ++ phPascalName ++ "Module") (by decide) (by decide) (by decide) (by decide)

/-- C2 (amended): when the destination already exists — the module not being
excluded, the template body being present, and the destination directory not
being occupied by a file — the unit returns `SkippedExists(path)` and never
writes: the file map is unchanged and the event trace contains no write.
However, the template IS looked up and rendered before the existence check
(the trace contains the template read). -/
theorem skip_exists_no_overwrite (cfg : Config) (fs : FS) (m tn : String)
    (tc : TemplateConfig) (body : String)
    (hex : shouldExclude cfg m tn = false)
    (hbody : fs.readFile (templatePathFor cfg tn) = some body)
    (hnf : fs.isFile (outputPathFor cfg m tc) = false)
    (hfull : fs.existsPath (fullPathFor cfg m tc) = true) :
    (generateFile cfg fs m tn tc).1 = .SkippedExists (fullPathFor cfg m tc) ∧
    (generateFile cfg fs m tn tc).2.1.files = fs.files ∧
    (¬ ∃ p c, FSEvent.fileWrite p c ∈ (generateFile cfg fs m tn tc).2.2) ∧
    FSEvent.templateRead (templatePathFor cfg tn) ∈ (generateFile cfg fs m tn tc).2.2 := by
  rw [generateFile_skipped_exists cfg fs m tn tc body hex hbody hnf hfull]
  refine ⟨rfl, FS.mkdir_files fs _, ?_, by simp⟩
  rintro ⟨p, c, hmem⟩
  simp at hmem

/-- C2 counterexample: with the destination file present but the template
body missing, the unit yields `Failed`, not `SkippedExists`; and with both
present, the event trace contains the template read, so template lookup and
rendering do occur for a unit whose destination exists. -/
theorem skip_exists_no_overwrite_cex :
    FS.existsPath ⟨[("./src/modules/users/users.module.ts", "old")], []⟩
        (fullPathFor defaultConfig "users" moduleTc) = true ∧
    (generateFile defaultConfig ⟨[("./src/modules/users/users.module.ts", "old")], []⟩
        "users" "module" moduleTc).1
      = .Failed ("Template not found: " ++ templatePathFor defaultConfig "module") ∧
    FSEvent.templateRead (templatePathFor defaultConfig "module")
      ∈ (generateFile defaultConfig
          ⟨[("./templates/module.stub", "B"),
            ("./src/modules/users/users.module.ts", "old")], ["./templates"]⟩
          "users" "module" moduleTc).2.2 := by
  decide

/-- Witness for C2 at a concrete existing destination. -/
theorem skip_exists_no_overwrite_witness :
    (generateFile defaultConfig
        ⟨[("./templates/module.stub", "B"),
          ("./src/modules/users/users.module.ts", "old")], ["./templates"]⟩
        "users" "module" moduleTc).1
      = .SkippedExists (fullPathFor defaultConfig "users" moduleTc) ∧
    (generateFile defaultConfig
        ⟨[("./templates/module.stub", "B"),
          ("./src/modules/users/users.module.ts", "old")], ["./templates"]⟩
        "users" "module" moduleTc).2.1.files
      = [("./templates/module.stub", "B"),
         ("./src/modules/users/users.module.ts", "old")] :=
  ⟨(skip_exists_no_overwrite defaultConfig
      ⟨[("./templates/module.stub", "B"),
        ("./src/modules/users/users.module.ts", "old")], ["./templates"]⟩
      "users" "module" moduleTc "B" (by decide) (by decide) (by decide) (by decide)).1,
   (skip_exists_no_overwrite defaultConfig
      ⟨[("./templates/module.stub", "B"),
        ("./src/modules/users/users.module.ts", "old")], ["./templates"]⟩
      "users" "module" moduleTc "B" (by decide) (by decide) (by decide) (by decide)).2.1⟩

/-- C5: rendering a template containing all six recognized placeholder
tokens (each twice) for module name "userProfile" replaces every occurrence:
canonical→userProfile, Pascal→UserProfile, camel→userProfile,
kebab→user-profile, snake→user_profile, upper-snake→USERPROFILE. -/
theorem render_userProfile :
    applyReplacements sixTokenTemplate "userProfile"
      = "userProfile UserProfile userProfile user-profile user_profile USERPROFILE / "
        ++ "userProfile UserProfile userProfile user-profile user_profile USERPROFILE" := by
  decide

/-- C6 (amended): the destination directory is `outputDir/moduleName`
(with the descriptor's subdirectory appended when present); the filename is
the descriptor's pattern with only the `\x7b\x7bmoduleName\x7d\x7d` token
globally substituted when a pattern is present — not the full six-token
renderer — and `moduleName.extension` otherwise. -/
theorem output_resolution (cfg : Config) (m : String) (tc : TemplateConfig) :
    (tc.outputPath = none → outputPathFor cfg m tc = pathJoin cfg.outputDir m) ∧
    (∀ sub, tc.outputPath = some sub →
      outputPathFor cfg m tc = pathJoin (pathJoin cfg.outputDir m) sub) ∧
    (tc.filename = none → filenameFor m tc = m ++ "." ++ tc.extension) ∧
    (∀ pat, tc.filename = some pat →
      filenameFor m tc = replaceStr phModuleName m pat) := by
  refine ⟨fun h => ?_, fun sub h => ?_, fun h => ?_, fun pat h => ?_⟩ <;>
    simp [outputPathFor, filenameFor, h]

/-- C6 counterexample: a filename pattern containing the Pascal-case token
is NOT substituted via the full renderer — the code replaces only the
canonical token, so the resolved filename differs from the spec's formula. -/
theorem output_resolution_cex :
    filenameFor "user" pascalPatternTc ≠ specFilenameFor "user" pascalPatternTc := by
  decide

/-- Witness for C6, including the claim's concrete example: subdir `dto`,
pattern `create-\x7b\x7bmoduleName\x7d\x7d.dto.ts`, module `orders`. -/
theorem output_resolution_witness :
    outputPathFor defaultConfig "orders" createDtoTc
      = pathJoin (pathJoin defaultConfig.outputDir "orders") "dto" ∧
    filenameFor "orders" createDtoTc
      = replaceStr phModuleName "orders" ("create-" ++ phModuleName ++ ".dto.ts") ∧
    fullPathFor defaultConfig "orders" createDtoTc
      = "./src/modules/orders/dto/create-orders.dto.ts" :=
  ⟨(output_resolution defaultConfig "orders" createDtoTc).2.1 "dto" rfl,
   (output_resolution defaultConfig "orders" createDtoTc).2.2.2
     ("create-" ++ phModuleName ++ ".dto.ts") rfl,
   by decide⟩

/-- C7: a `TemplateNotFound` (missing template body) or `WriteFailure`
(directory creation hitting an existing file) is caught at the unit's
boundary and recorded as a `Failed` outcome that leaves the filesystem
unchanged; every template of a module and every module of a batch (when the
templates directory exists) still gets exactly one outcome, in order. -/
theorem unit_failures_isolated (cfg : Config) (m tnA tnB : String)
    (tcA tcB : TemplateConfig) (fs fsA fsB : FS) (names : List String) (bodyB : String)
    (hexA : shouldExclude cfg m tnA = false)
    (hnoneA : fsA.readFile (templatePathFor cfg tnA) = none)
    (hexB : shouldExclude cfg m tnB = false)
    (hbodyB : fsB.readFile (templatePathFor cfg tnB) = some bodyB)
    (hfileB : fsB.isFile (outputPathFor cfg m tcB) = true)
    (hdir : fs.existsPath cfg.templatesDir = true) :
    generateFile cfg fsA m tnA tcA
      = (.Failed ("Template not found: " ++ templatePathFor cfg tnA), fsA,
         [.templateRead (templatePathFor cfg tnA)]) ∧
    generateFile cfg fsB m tnB tcB
      = (.Failed ("EEXIST: file already exists, mkdir " ++ outputPathFor cfg m tcB), fsB,
         [.templateRead (templatePathFor cfg tnB), .dirCreate (outputPathFor cfg m tcB)]) ∧
    (generateModule cfg fs m).1.map Prod.fst = cfg.templates.map Prod.fst ∧
    (∃ r, generateModules cfg fs names = .ok r ∧ r.1.map Prod.fst = names) := by
  refine ⟨?_, ?_, ?_, ?_⟩
  · simp only [generateFile, hexA, Bool.false_eq_true, if_false, hnoneA]
  · simp only [generateFile, hexB, Bool.false_eq_true, if_false, hbodyB, hfileB, if_true]
  · exact runTemplates_keys cfg m cfg.templates fs
  · exact ⟨runModules cfg names fs, by simp [generateModules, hdir],
      runModules_keys cfg names fs⟩

/-- Witness for C7: under the default configuration, a missing `module`
template yields a recorded `Failed` outcome; a file squatting on the
module's output directory makes directory creation fail as a recorded
`Failed` outcome; and a module/batch run still yields one outcome per
template and per module. -/
theorem unit_failures_isolated_witness :
    generateFile defaultConfig ⟨[], []⟩ "users" "module" moduleTc
      = (.Failed ("Template not found: " ++ templatePathFor defaultConfig "module"),
         ⟨[], []⟩, [.templateRead (templatePathFor defaultConfig "module")]) ∧
    generateFile defaultConfig
        ⟨[("./templates/module.stub", "B"), ("./src/modules/users", "squatter")],
         ["./templates"]⟩ "users" "module" moduleTc
      = (.Failed ("EEXIST: file already exists, mkdir "
            ++ outputPathFor defaultConfig "users" moduleTc),
         ⟨[("./templates/module.stub", "B"), ("./src/modules/users", "squatter")],
          ["./templates"]⟩,
         [.templateRead (templatePathFor defaultConfig "module"),
          .dirCreate (outputPathFor defaultConfig "users" moduleTc)]) ∧
    (generateModule defaultConfig ⟨[], ["./templates"]⟩ "users").1.map Prod.fst
      = defaultConfig.templates.map Prod.fst ∧
    (∃ r, generateModules defaultConfig ⟨[], ["./templates"]⟩ ["users", "orders"] = .ok r ∧
      r.1.map Prod.fst = ["users", "orders"]) :=
  unit_failures_isolated defaultConfig "users" "module" "module" moduleTc moduleTc
    ⟨[], ["./templates"]⟩ ⟨[], []⟩
    ⟨[("./templates/module.stub", "B"), ("./src/modules/users", "squatter")], ["./templates"]⟩
    ["users", "orders"] "B" (by decide) (by decide) (by decide) (by decide) (by decide) (by decide)

/-- C10: each of the four naming transforms is idempotent — applying it
twice equals applying it once (the kebab and snake outputs are fully
lower-cased, so the second separator-insertion pass finds no lower-upper
boundary). -/
theorem transforms_idempotent (s : String) :
    toPascalCase (toPascalCase s) = toPascalCase s ∧
    toCamelCase (toCamelCase s) = toCamelCase s ∧
    toKebabCase (toKebabCase s) = toKebabCase s ∧
    toSnakeCase (toSnakeCase s) = toSnakeCase s := by
  obtain ⟨l⟩ := s
  refine ⟨?_, ?_, ?_, ?_⟩
  · cases l with
    | nil => rfl
    | cons c rest =>
      show String.mk (c.toUpper.toUpper :: rest) = String.mk (c.toUpper :: rest)
      rw [toUpper_idem]
  · cases l with
    | nil => rfl
    | cons c rest =>
      show String.mk (c.toLower.toLower :: rest) = String.mk (c.toLower :: rest)
      rw [toLower_idem]
  · show String.mk ((insertSep '-' ((insertSep '-' l).map Char.toLower)).map Char.toLower)
        = String.mk ((insertSep '-' l).map Char.toLower)
    rw [insertSep_eq_self '-' _ (forall_isUpperAZ_map_toLower _), map_toLower_idem]
  · show String.mk ((insertSep '_' ((insertSep '_' l).map Char.toLower)).map Char.toLower)
        = String.mk ((insertSep '_' l).map Char.toLower)
    rw [insertSep_eq_self '_' _ (forall_isUpperAZ_map_toLower _), map_toLower_idem]
